import Mathlib

/-!
Verification development for the balloon animation subsystem of the
portfolio single-page application (src/App.tsx, with the near-duplicate
variants src/unnamed/part_000 and src/unnamed/part_001).

The embedding mirrors the TypeScript source:
  randomBalloon   -- the pure balloon factory (App.tsx lines 67-77)
  BalloonsLayer   -- live-set state machine: the mount effect spawns an
                     initial burst of 12 and installs a 1600 ms interval
                     whose callback is
                       setBalloons(b => b.length > 35 ? b : b.concat(randomBalloon(idRef.current++)))
                     (App.tsx lines 84-92); removal on animation complete
                     or click filters the array by id (lines 115-134)
  useAudioPop     -- the tone synthesizer hook (App.tsx lines 9-56); the
                     whole body is wrapped in try/catch with an empty
                     catch, so failures are swallowed
  Portfolio       -- renders the layer conditionally:
                       balloonsOn && BalloonsLayer(enabled, muted)
                     (App.tsx line 402), so turning balloons off unmounts
                     the component and discards its state.

Random draws are modelled by an injected source assigning to each balloon
id the five uniform values the factory consumes; time is modelled by
rational instants, and host promise settling (AudioContext.resume) by an
explicit delay in the audio environment.
-/

namespace BalloonApp

/-- One bundle of the five uniform random draws consumed by a single call
to randomBalloon; each is expected to lie in the interval from 0
inclusive to 1 exclusive, matching the host random generator. -/
structure Draw where
  u1 : ℚ
  u2 : ℚ
  u3 : ℚ
  u4 : ℚ
  u5 : ℚ
deriving DecidableEq

/-- The balloon record, mirroring the TypeScript type Balloon:
id, x (viewport-width percent), size (px), hue (degrees),
floatSec (ascent duration, seconds), sway (px). -/
structure Balloon where
  id : ℕ
  x : ℚ
  size : ℚ
  hue : ℤ
  floatSec : ℚ
  sway : ℚ
deriving DecidableEq

/-- The balloon factory, mirroring randomBalloon in App.tsx lines 67-77:
size = 38 + r1 * 34, x = r2 * 96 + 2, hue = floor(r3 * 360),
floatSec = 10 + r4 * 10, sway = 20 + r5 * 60. -/
def randomBalloon (idSeed : ℕ) (d : Draw) : Balloon where
  id := idSeed
  x := d.u2 * 96 + 2
  size := 38 + d.u1 * 34
  hue := Int.floor (d.u3 * 360)
  floatSec := 10 + d.u4 * 10
  sway := 20 + d.u5 * 60

/-- State owned by one mounted BalloonsLayer component: the balloons
useState array and the idRef counter (initialised to 1). -/
structure LayerState where
  balloons : List Balloon
  nextId : ℕ
deriving DecidableEq

/-- A random source: the draws consumed when creating the balloon with a
given id. -/
def RandSrc : Type := ℕ → Draw

/-- One call of randomBalloon(idRef.current++) appended to the array, as
performed both by the initial burst and by an admitted spawn tick. -/
def spawnOne (rnd : RandSrc) (s : LayerState) : LayerState :=
  ⟨s.balloons ++ [randomBalloon s.nextId (rnd s.nextId)], s.nextId + 1⟩

/-- The size of the initial burst in the mount effect (the literal 12 in
Array.from length 12, App.tsx line 86). -/
def initialBurstCount : ℕ := 12

/-- The spawn interval period in milliseconds (the literal 1600 passed to
setInterval, App.tsx line 89); 1.6 time-units. -/
def spawnIntervalMs : ℕ := 1600

/-- The literal 35 in the spawn guard b.length > 35 (App.tsx line 88). -/
def spawnGuardLimit : ℕ := 35

/-- The state of a freshly mounted BalloonsLayer after its mount effect:
balloons starts as the empty useState array, idRef.current starts at 1,
and the effect appends 12 balloons with consecutive ids. -/
def mountLayer (rnd : RandSrc) : LayerState :=
  (spawnOne rnd)^[initialBurstCount] ⟨[], 1⟩

/-- One firing of the spawn interval callback:
setBalloons(b => b.length > 35 ? b : b.concat(randomBalloon(idRef.current++))).
When the guard refuses, idRef is not incremented because the ternary only
evaluates its third operand in that branch. -/
def tick (rnd : RandSrc) (s : LayerState) : LayerState :=
  if s.balloons.length > spawnGuardLimit then s else spawnOne rnd s

/-- Removal by id, as performed by both the onAnimationComplete handler
and the onClick handler: setBalloons(b => b.filter(x => x.id !== id)). -/
def removeBalloon (i : ℕ) (bs : List Balloon) : List Balloon :=
  bs.filter (fun b => b.id != i)

/-- Events that can reach a mounted layer while it stays mounted: a spawn
interval firing, or a remove request (natural ascent completion or pop)
for a given id. -/
inductive LayerEvent where
  | tick : LayerEvent
  | remove : ℕ → LayerEvent
deriving DecidableEq

/-- Effect of one layer event on the layer state. -/
def layerStep (rnd : RandSrc) (s : LayerState) : LayerEvent → LayerState
  | LayerEvent.tick => tick rnd s
  | LayerEvent.remove i => ⟨removeBalloon i s.balloons, s.nextId⟩

/-- Run a sequence of layer events from a state. -/
def runEvents (rnd : RandSrc) : LayerState → List LayerEvent → LayerState
  | s, [] => s
  | s, e :: es => runEvents rnd (layerStep rnd s e) es

/-- Run n consecutive spawn ticks. -/
def ticksN (rnd : RandSrc) : ℕ → LayerState → LayerState
  | 0, s => s
  | n + 1, s => ticksN rnd n (tick rnd s)

lemma length_spawnOne (rnd : RandSrc) (s : LayerState) :
    (spawnOne rnd s).balloons.length = s.balloons.length + 1 := by
  simp [spawnOne]

lemma length_tick (rnd : RandSrc) (s : LayerState) :
    (tick rnd s).balloons.length =
      if s.balloons.length ≤ 35 then s.balloons.length + 1
      else s.balloons.length := by
  unfold tick spawnGuardLimit
  rcases Nat.lt_or_ge 35 s.balloons.length with h | h
  · rw [if_pos h, if_neg (by omega)]
  · rw [if_neg (by omega), if_pos (by omega), length_spawnOne]

lemma tick_appends (rnd : RandSrc) (s : LayerState)
    (h : s.balloons.length ≤ 35) :
    (tick rnd s).balloons =
      s.balloons ++ [randomBalloon s.nextId (rnd s.nextId)] := by
  unfold tick spawnGuardLimit
  rw [if_neg (by omega)]
  rfl

lemma tick_capped (rnd : RandSrc) (s : LayerState)
    (h : 35 < s.balloons.length) : tick rnd s = s := by
  unfold tick spawnGuardLimit
  rw [if_pos h]

lemma length_iterate_spawnOne (rnd : RandSrc) :
    ∀ (n : ℕ) (s : LayerState),
      ((spawnOne rnd)^[n] s).balloons.length = s.balloons.length + n := by
  intro n
  induction n with
  | zero => intro s; simp
  | succ n ih =>
      intro s
      rw [Function.iterate_succ_apply, ih, length_spawnOne]
      omega

lemma length_mountLayer (rnd : RandSrc) :
    (mountLayer rnd).balloons.length = initialBurstCount := by
  unfold mountLayer
  rw [length_iterate_spawnOne]
  rfl

lemma length_ticksN (rnd : RandSrc) :
    ∀ (n : ℕ) (s : LayerState), s.balloons.length ≤ 36 →
      (ticksN rnd n s).balloons.length = min (s.balloons.length + n) 36 := by
  intro n
  induction n with
  | zero =>
      intro s h
      simp [ticksN]
      omega
  | succ n ih =>
      intro s h
      show (ticksN rnd n (tick rnd s)).balloons.length = _
      rw [ih (tick rnd s) (by rw [length_tick]; split_ifs <;> omega)]
      rw [length_tick]
      split_ifs <;> omega

lemma length_runEvents_le (rnd : RandSrc) :
    ∀ (evs : List LayerEvent) (s : LayerState), s.balloons.length ≤ 36 →
      (runEvents rnd s evs).balloons.length ≤ 36 := by
  intro evs
  induction evs with
  | nil => intro s h; exact h
  | cons e es ih =>
      intro s h
      show (runEvents rnd (layerStep rnd s e) es).balloons.length ≤ 36
      apply ih
      cases e with
      | tick =>
          show (tick rnd s).balloons.length ≤ 36
          rw [length_tick]
          split_ifs <;> omega
      | remove i =>
          exact le_trans (List.length_filter_le _ _) h

lemma runEvents_replicate_tick (rnd : RandSrc) :
    ∀ (n : ℕ) (s : LayerState),
      runEvents rnd s (List.replicate n LayerEvent.tick) = ticksN rnd n s := by
  intro n
  induction n with
  | zero => intro s; rfl
  | succ n ih =>
      intro s
      rw [List.replicate_succ]
      exact ih (tick rnd s)

/-- A concrete random source for closed evaluations: every draw is 1/2. -/
def halfDraw : Draw := ⟨1/2, 1/2, 1/2, 1/2, 1/2⟩

/-- The constant half random source. -/
def halfRnd : RandSrc := fun _ => halfDraw

/-- State of the whole Portfolio component as far as the balloon
subsystem is concerned: the balloonsOn flag, the BalloonsLayer state when
the layer is mounted (the JSX is balloonsOn && BalloonsLayer, App.tsx
line 402, so the layer exists exactly while balloonsOn holds), and a
history variable recording every id ever passed to randomBalloon during
the session. -/
structure AppState where
  balloonsOn : Bool
  layer : Option LayerState
  createdLog : List ℕ
deriving DecidableEq

/-- Ids assigned by the mount burst of a fresh BalloonsLayer: idRef
starts at 1 and the effect creates 12 balloons, so ids 1 through 12. -/
def burstIds : List ℕ := (List.range initialBurstCount).map (· + 1)

/-- Events at the Portfolio level: the header toggle button
(setBalloonsOn (v => not v)), a spawn interval firing, or a remove
request for an id. -/
inductive AppEvent where
  | toggle : AppEvent
  | tick : AppEvent
  | remove : ℕ → AppEvent
deriving DecidableEq

/-- Effect of one app event. Toggling off removes the conditional JSX
subtree, unmounting BalloonsLayer and discarding its useState array and
idRef; toggling on mounts a fresh layer whose effect runs the initial
burst. Tick and remove reach the layer only while it is mounted. -/
def appStep (rnd : RandSrc) (s : AppState) : AppEvent → AppState
  | AppEvent.toggle =>
      if s.balloonsOn then ⟨false, none, s.createdLog⟩
      else ⟨true, some (mountLayer rnd), s.createdLog ++ burstIds⟩
  | AppEvent.tick =>
      match s.layer with
      | none => s
      | some ls =>
          if ls.balloons.length > spawnGuardLimit then s
          else ⟨s.balloonsOn, some (spawnOne rnd ls), s.createdLog ++ [ls.nextId]⟩
  | AppEvent.remove i =>
      match s.layer with
      | none => s
      | some ls => ⟨s.balloonsOn, some ⟨removeBalloon i ls.balloons, ls.nextId⟩, s.createdLog⟩

/-- Run a sequence of app events. -/
def appRun (rnd : RandSrc) : AppState → List AppEvent → AppState
  | s, [] => s
  | s, e :: es => appRun rnd (appStep rnd s e) es

/-- Initial Portfolio state: useState(true) for balloonsOn, so the layer
is mounted from the start and its burst has created ids 1 through 12. -/
def appInit (rnd : RandSrc) : AppState :=
  ⟨true, some (mountLayer rnd), burstIds⟩

/-- Number of live balloons visible on the page: zero when the layer is
unmounted. -/
def liveSize (s : AppState) : ℕ :=
  match s.layer with
  | none => 0
  | some ls => ls.balloons.length

/-- Failure of the audio path: the context constructor or a node
operation threw (output device denied, API unavailable). -/
inductive AudioErr where
  | contextUnavailable : AudioErr
deriving DecidableEq

/-- Host audio environment for one pop call: whether the context and
graph operations succeed, whether the context starts suspended, and how
long the resume promise takes to settle. -/
structure AudioEnv where
  available : Bool
  suspended : Bool
  resumeDelay : ℚ
deriving DecidableEq

/-- The signal graph built by one pop invocation, mirroring useAudioPop
in App.tsx lines 24-53 with now the context time at which the body runs:
output gain at max(0.0001, volume) ramping to 0.0001 over 0.12, a
triangle oscillator sweeping 240 to 60 over 0.12 and stopped at
now + 0.13, a 2048-sample noise buffer through its own gain at
volume * 0.4 ramping out over 0.05 and stopped at now + 0.06, connected
osc to gain, noise to noiseGain, noiseGain to gain, gain to destination. -/
structure AudioGraph where
  gainInitial : ℚ
  gainRampTarget : ℚ
  gainRampEnd : ℚ
  oscType : String
  oscFreqInit : ℚ
  oscFreqTarget : ℚ
  oscFreqRampEnd : ℚ
  oscStart : ℚ
  oscStop : ℚ
  noiseBufferLen : ℕ
  noiseGainInitial : ℚ
  noiseGainRampTarget : ℚ
  noiseGainRampEnd : ℚ
  noiseStart : ℚ
  noiseStop : ℚ
  connections : List (String × String)
deriving DecidableEq

/-- Construct the pop signal graph for a given volume at context time
now, mirroring App.tsx lines 26-53. -/
def buildGraph (vol now : ℚ) : AudioGraph where
  gainInitial := max (1/10000) vol
  gainRampTarget := 1/10000
  gainRampEnd := now + 12/100
  oscType := "triangle"
  oscFreqInit := 240
  oscFreqTarget := 60
  oscFreqRampEnd := now + 12/100
  oscStart := now
  oscStop := now + 13/100
  noiseBufferLen := 2048
  noiseGainInitial := vol * (2/5)
  noiseGainRampTarget := 1/10000
  noiseGainRampEnd := now + 5/100
  noiseStart := now
  noiseStop := now + 6/100
  connections :=
    [("osc", "gain"), ("noise", "noiseGain"), ("noiseGain", "gain"), ("gain", "destination")]

/-- The body of the async closure returned by useAudioPop, before the
enclosing try/catch is applied: it either throws (modelled as an error)
or resumes the suspended context (taking resumeDelay) and builds the
graph, returning it with the instant at which the returned promise
settles. Invoked at wall time t. -/
def popBody (env : AudioEnv) (vol t : ℚ) : Except AudioErr (AudioGraph × ℚ) :=
  if env.available then
    let settle := if env.suspended then t + env.resumeDelay else t
    Except.ok (buildGraph vol settle, settle)
  else
    Except.error AudioErr.contextUnavailable

/-- The pop closure as the caller sees it: the try/catch in App.tsx
lines 15-54 swallows every error, so the promise always resolves, with
no constructed graph and immediate settling on failure. -/
def pop (env : AudioEnv) (vol t : ℚ) : Option AudioGraph × ℚ :=
  match popBody env vol t with
  | Except.ok (g, settle) => (some g, settle)
  | Except.error _ => (none, t)

/-- Volume handed to useAudioPop by BalloonsLayer (App.tsx line 81):
muted gives 0, otherwise 0.06. -/
def layerVolume (muted : Bool) : ℚ := if muted then 0 else 6/100

/-- Observable actions of one click handler run. -/
inductive PopEvent where
  | synthInvoke : PopEvent
  | removeRequest : ℕ → PopEvent
deriving DecidableEq, BEq

/-- The onClick handler of a balloon (App.tsx lines 120-135), activated
at wall time t on balloon id i with live array bs: it stops propagation,
invokes pop() exactly once and awaits it, then filters the array by id.
Each emitted event carries the instant at which it happens: the
synthesizer invocation starts at t; the remove request is issued when
the awaited pop promise settles. -/
def clickHandler (env : AudioEnv) (muted : Bool) (t : ℚ) (i : ℕ)
    (bs : List Balloon) : List (PopEvent × ℚ) × List Balloon :=
  let r := pop env (layerVolume muted) t
  ([(PopEvent.synthInvoke, t), (PopEvent.removeRequest i, r.2)], removeBalloon i bs)

lemma mem_removeBalloon (i : ℕ) (bs : List Balloon) (b : Balloon) :
    b ∈ removeBalloon i bs ↔ b ∈ bs ∧ b.id ≠ i := by
  simp [removeBalloon, List.mem_filter, bne_iff_ne]

lemma removeBalloon_idem (i : ℕ) (bs : List Balloon) :
    removeBalloon i (removeBalloon i bs) = removeBalloon i bs := by
  apply List.filter_eq_self.mpr
  intro b hb
  exact (List.mem_filter.mp hb).2

lemma removeBalloon_absent (i : ℕ) (bs : List Balloon)
    (h : ∀ b ∈ bs, b.id ≠ i) : removeBalloon i bs = bs := by
  apply List.filter_eq_self.mpr
  intro b hb
  simpa [bne_iff_ne] using h b hb

/-- Claim C10: the spawn tick guard appends a new balloon exactly when
the live set size is at most 35 and leaves the set unchanged otherwise;
consequently over every event sequence from a fresh mount the live set
size never exceeds 36, and size 36 is reachable. -/
theorem c10_spawn_guard_and_bound :
    (∀ (rnd : RandSrc) (s : LayerState),
      (tick rnd s).balloons =
        if s.balloons.length ≤ 35 then
          s.balloons ++ [randomBalloon s.nextId (rnd s.nextId)]
        else s.balloons) ∧
    (∀ (rnd : RandSrc) (evs : List LayerEvent),
      (runEvents rnd (mountLayer rnd) evs).balloons.length ≤ 36) ∧
    (∃ (rnd : RandSrc) (evs : List LayerEvent),
      (runEvents rnd (mountLayer rnd) evs).balloons.length = 36) := by
  refine ⟨?_, ?_, ?_⟩
  · intro rnd s
    rcases Nat.lt_or_ge 35 s.balloons.length with h | h
    · rw [tick_capped rnd s h, if_neg (by omega)]
    · rw [tick_appends rnd s (by omega), if_pos (by omega)]
  · intro rnd evs
    apply length_runEvents_le
    rw [length_mountLayer]
    norm_num [initialBurstCount]
  · refine ⟨halfRnd, List.replicate 24 LayerEvent.tick, ?_⟩
    rw [runEvents_replicate_tick,
      length_ticksN _ _ _ (by rw [length_mountLayer]; norm_num [initialBurstCount]),
      length_mountLayer]
    norm_num [initialBurstCount]

/-- Claim C1 counterexample: from a fresh mount, 23 spawn ticks bring
the live set to exactly 35, and the next spawn tick does not leave the
set unchanged: it appends a balloon and the size reaches 36, exceeding
the stated cap of 35. -/
theorem c1_counterexample :
    (ticksN halfRnd 23 (mountLayer halfRnd)).balloons.length = 35 ∧
    tick halfRnd (ticksN halfRnd 23 (mountLayer halfRnd)) ≠
      ticksN halfRnd 23 (mountLayer halfRnd) ∧
    (tick halfRnd (ticksN halfRnd 23 (mountLayer halfRnd))).balloons.length = 36 := by
  have h35 : (ticksN halfRnd 23 (mountLayer halfRnd)).balloons.length = 35 := by
    rw [length_ticksN _ _ _ (by rw [length_mountLayer]; norm_num [initialBurstCount]),
      length_mountLayer]
    norm_num [initialBurstCount]
  have h36 : (tick halfRnd (ticksN halfRnd 23 (mountLayer halfRnd))).balloons.length = 36 := by
    rw [length_tick, h35]
    norm_num
  refine ⟨h35, ?_, h36⟩
  intro heq
  rw [heq, h35] at h36
  omega

/-- Claim C1 amended: the spawn scheduler never evicts and the live set
size never exceeds 36: every event sequence from a fresh mount keeps the
size at most 36; a spawn tick firing at size exactly 35 appends one
balloon while keeping the existing ones as a prefix, and a spawn tick
firing at size 36 or more leaves the set unchanged. -/
theorem c1_amended_cap36 :
    (∀ (rnd : RandSrc) (evs : List LayerEvent),
      (runEvents rnd (mountLayer rnd) evs).balloons.length ≤ 36) ∧
    (∀ (rnd : RandSrc) (s : LayerState), s.balloons.length = 35 →
      (tick rnd s).balloons =
        s.balloons ++ [randomBalloon s.nextId (rnd s.nextId)]) ∧
    (∀ (rnd : RandSrc) (s : LayerState), 36 ≤ s.balloons.length →
      tick rnd s = s) := by
  refine ⟨?_, ?_, ?_⟩
  · intro rnd evs
    apply length_runEvents_le
    rw [length_mountLayer]
    norm_num [initialBurstCount]
  · intro rnd s h
    exact tick_appends rnd s (by omega)
  · intro rnd s h
    exact tick_capped rnd s (by omega)

/-- Witness for the amended C1 theorem at concrete states: a layer
holding 35 balloons admits exactly one more on a tick, and a layer
holding 36 refuses the tick. -/
theorem c1_amended_cap36_witness :
    ((LayerState.mk (List.replicate 35 (randomBalloon 0 halfDraw)) 40).balloons.length = 35 ∧
      (tick halfRnd ⟨List.replicate 35 (randomBalloon 0 halfDraw), 40⟩).balloons =
        List.replicate 35 (randomBalloon 0 halfDraw) ++ [randomBalloon 40 halfDraw]) ∧
    (36 ≤ (LayerState.mk (List.replicate 36 (randomBalloon 0 halfDraw)) 40).balloons.length ∧
      tick halfRnd ⟨List.replicate 36 (randomBalloon 0 halfDraw), 40⟩ =
        ⟨List.replicate 36 (randomBalloon 0 halfDraw), 40⟩) := by
  refine ⟨⟨by simp, ?_⟩, ⟨by simp, ?_⟩⟩
  · exact c1_amended_cap36.2.1 halfRnd
      ⟨List.replicate 35 (randomBalloon 0 halfDraw), 40⟩ (by simp)
  · exact c1_amended_cap36.2.2 halfRnd
      ⟨List.replicate 36 (randomBalloon 0 halfDraw), 40⟩ (by simp)

/-- Claim C5 counterexample: enabling from a clean state and letting the
spawn timer run, the 23rd tick brings the live set to the documented cap
of 35, yet the 24th tick still appends one more balloon, growing the set
to 36 instead of stopping once the cap is hit. -/
theorem c5_counterexample :
    (ticksN halfRnd 23 (mountLayer halfRnd)).balloons.length = 35 ∧
    (ticksN halfRnd 24 (mountLayer halfRnd)).balloons.length = 36 := by
  constructor
  · rw [length_ticksN _ _ _ (by rw [length_mountLayer]; norm_num [initialBurstCount]),
      length_mountLayer]
    norm_num [initialBurstCount]
  · rw [length_ticksN _ _ _ (by rw [length_mountLayer]; norm_num [initialBurstCount]),
      length_mountLayer]
    norm_num [initialBurstCount]

/-- Claim C5 amended: enabling from a clean disabled state appends
exactly 12 balloons immediately, and each firing of the 1600 ms spawn
timer appends exactly one new balloon while the live size is at most 35,
so after n uninterrupted ticks the size is the minimum of 12 + n and 36:
growth stops only once the size exceeds 35, at 36. -/
theorem c5_amended_spawn_schedule :
    (∀ rnd : RandSrc, (mountLayer rnd).balloons.length = initialBurstCount) ∧
    initialBurstCount = 12 ∧
    spawnIntervalMs = 1600 ∧
    (∀ (rnd : RandSrc) (s : LayerState), s.balloons.length ≤ 35 →
      (tick rnd s).balloons =
        s.balloons ++ [randomBalloon s.nextId (rnd s.nextId)]) ∧
    (∀ (rnd : RandSrc) (n : ℕ),
      (ticksN rnd n (mountLayer rnd)).balloons.length =
        min (initialBurstCount + n) 36) := by
  refine ⟨fun rnd => length_mountLayer rnd, rfl, rfl, ?_, ?_⟩
  · intro rnd s h
    exact tick_appends rnd s h
  · intro rnd n
    rw [length_ticksN _ _ _ (by rw [length_mountLayer]; norm_num [initialBurstCount]),
      length_mountLayer]

/-- Witness for the amended C5 theorem: a layer holding 20 balloons
gains exactly one on a tick, and three ticks from a fresh mount give
size 15. -/
theorem c5_amended_spawn_schedule_witness :
    ((LayerState.mk (List.replicate 20 (randomBalloon 0 halfDraw)) 21).balloons.length ≤ 35 ∧
      (tick halfRnd ⟨List.replicate 20 (randomBalloon 0 halfDraw), 21⟩).balloons =
        List.replicate 20 (randomBalloon 0 halfDraw) ++ [randomBalloon 21 halfDraw]) ∧
    (ticksN halfRnd 3 (mountLayer halfRnd)).balloons.length =
      min (initialBurstCount + 3) 36 := by
  refine ⟨⟨by simp, ?_⟩, c5_amended_spawn_schedule.2.2.2.2 halfRnd 3⟩
  exact c5_amended_spawn_schedule.2.2.2.1 halfRnd
    ⟨List.replicate 20 (randomBalloon 0 halfDraw), 21⟩ (by simp)

/-- Claim C7: removal by id removes the balloon with that id when
present and is a no-op when absent; removal is idempotent, so whichever
of natural completion and pop fires first wins and the second remove
request for the same id has no effect on the layer state. -/
theorem c7_remove_idempotent_noop :
    (∀ (i : ℕ) (bs : List Balloon),
      removeBalloon i (removeBalloon i bs) = removeBalloon i bs) ∧
    (∀ (i : ℕ) (bs : List Balloon), (∀ b ∈ bs, b.id ≠ i) →
      removeBalloon i bs = bs) ∧
    (∀ (i : ℕ) (bs : List Balloon) (b : Balloon),
      b ∈ removeBalloon i bs ↔ b ∈ bs ∧ b.id ≠ i) ∧
    (∀ (rnd : RandSrc) (s : LayerState) (i : ℕ),
      layerStep rnd (layerStep rnd s (LayerEvent.remove i)) (LayerEvent.remove i) =
        layerStep rnd s (LayerEvent.remove i)) := by
  refine ⟨fun i bs => removeBalloon_idem i bs,
    fun i bs h => removeBalloon_absent i bs h,
    fun i bs b => mem_removeBalloon i bs b, ?_⟩
  intro rnd s i
  show (⟨removeBalloon i (removeBalloon i s.balloons), s.nextId⟩ : LayerState) =
    ⟨removeBalloon i s.balloons, s.nextId⟩
  rw [removeBalloon_idem]

/-- Witness for C7 at a concrete input: removing id 5 from a singleton
list holding id 1 is a no-op, and removing id 1 twice equals removing it
once. -/
theorem c7_remove_idempotent_noop_witness :
    (∀ b ∈ [randomBalloon 1 halfDraw], b.id ≠ 5) ∧
    removeBalloon 5 [randomBalloon 1 halfDraw] = [randomBalloon 1 halfDraw] ∧
    removeBalloon 1 (removeBalloon 1 [randomBalloon 1 halfDraw]) =
      removeBalloon 1 [randomBalloon 1 halfDraw] := by
  have habs : ∀ b ∈ [randomBalloon 1 halfDraw], b.id ≠ 5 := by
    intro b hb
    rw [List.mem_singleton] at hb
    subst hb
    decide
  exact ⟨habs, c7_remove_idempotent_noop.2.1 5 [randomBalloon 1 halfDraw] habs,
    c7_remove_idempotent_noop.1 1 [randomBalloon 1 halfDraw]⟩

/-- Claim C4: the balloon factory is a total pure function that assigns
the requested id and, given five uniform draws from the unit interval,
returns parameters inside the documented ranges: size in 36 to 72,
horizontal position in 2 to 98 percent, hue an integer from 0 to 359,
ascent duration in 10 to 20, sway amplitude in 20 to 80. -/
theorem c4_factory_ranges (idSeed : ℕ) (d : Draw)
    (h1 : 0 ≤ d.u1) (h1l : d.u1 < 1) (h2 : 0 ≤ d.u2) (h2l : d.u2 < 1)
    (h3 : 0 ≤ d.u3) (h3l : d.u3 < 1) (h4 : 0 ≤ d.u4) (h4l : d.u4 < 1)
    (h5 : 0 ≤ d.u5) (h5l : d.u5 < 1) :
    (randomBalloon idSeed d).id = idSeed ∧
    36 ≤ (randomBalloon idSeed d).size ∧ (randomBalloon idSeed d).size ≤ 72 ∧
    2 ≤ (randomBalloon idSeed d).x ∧ (randomBalloon idSeed d).x ≤ 98 ∧
    0 ≤ (randomBalloon idSeed d).hue ∧ (randomBalloon idSeed d).hue ≤ 359 ∧
    10 ≤ (randomBalloon idSeed d).floatSec ∧ (randomBalloon idSeed d).floatSec ≤ 20 ∧
    20 ≤ (randomBalloon idSeed d).sway ∧ (randomBalloon idSeed d).sway ≤ 80 := by
  have hsize : (randomBalloon idSeed d).size = 38 + d.u1 * 34 := rfl
  have hx : (randomBalloon idSeed d).x = d.u2 * 96 + 2 := rfl
  have hhue : (randomBalloon idSeed d).hue = Int.floor (d.u3 * 360) := rfl
  have hfloat : (randomBalloon idSeed d).floatSec = 10 + d.u4 * 10 := rfl
  have hsway : (randomBalloon idSeed d).sway = 20 + d.u5 * 60 := rfl
  have hhue0 : (0 : ℤ) ≤ Int.floor (d.u3 * 360) :=
    Int.floor_nonneg.mpr (by nlinarith)
  have hhue1 : Int.floor (d.u3 * 360) < 360 := by
    apply Int.floor_lt.mpr
    push_cast
    nlinarith
  refine ⟨rfl, ?_, ?_, ?_, ?_, ?_, ?_, ?_, ?_, ?_, ?_⟩
  · rw [hsize]; nlinarith
  · rw [hsize]; nlinarith
  · rw [hx]; nlinarith
  · rw [hx]; nlinarith
  · rw [hhue]; exact hhue0
  · rw [hhue]; omega
  · rw [hfloat]; nlinarith
  · rw [hfloat]; nlinarith
  · rw [hsway]; nlinarith
  · rw [hsway]; nlinarith

/-- Witness for C4 at the concrete draw with every value one half. -/
theorem c4_factory_ranges_witness :
    ((0:ℚ) ≤ 1/2 ∧ (1/2:ℚ) < 1) ∧
    ((randomBalloon 7 halfDraw).id = 7 ∧
      36 ≤ (randomBalloon 7 halfDraw).size ∧ (randomBalloon 7 halfDraw).size ≤ 72 ∧
      2 ≤ (randomBalloon 7 halfDraw).x ∧ (randomBalloon 7 halfDraw).x ≤ 98 ∧
      0 ≤ (randomBalloon 7 halfDraw).hue ∧ (randomBalloon 7 halfDraw).hue ≤ 359 ∧
      10 ≤ (randomBalloon 7 halfDraw).floatSec ∧
      (randomBalloon 7 halfDraw).floatSec ≤ 20 ∧
      20 ≤ (randomBalloon 7 halfDraw).sway ∧ (randomBalloon 7 halfDraw).sway ≤ 80) := by
  have h : (0:ℚ) ≤ 1/2 := by norm_num
  have hl : (1/2:ℚ) < 1 := by norm_num
  exact ⟨⟨h, hl⟩, c4_factory_ranges 7 halfDraw h hl h hl h hl h hl h hl⟩

/-- Claim C3 counterexample: the click handler awaits the synthesizer
invocation, so when the audio context starts suspended and its resume
promise takes 1 time-unit to settle, an activation at time 0 issues the
remove request at time 1 rather than immediately at the activation
instant. -/
theorem c3_counterexample :
    (clickHandler ⟨true, true, 1⟩ false 0 7 []).1 =
      [(PopEvent.synthInvoke, 0), (PopEvent.removeRequest 7, 1)] ∧
    (PopEvent.removeRequest 7, (0:ℚ)) ∉ (clickHandler ⟨true, true, 1⟩ false 0 7 []).1 := by
  constructor
  · show [(PopEvent.synthInvoke, (0:ℚ)), (PopEvent.removeRequest 7, 0 + 1)] = _
    norm_num
  · show (PopEvent.removeRequest 7, (0:ℚ)) ∉
      [(PopEvent.synthInvoke, (0:ℚ)), (PopEvent.removeRequest 7, 0 + 1)]
    intro hmem
    rcases List.mem_cons.mp hmem with h | h
    · exact PopEvent.noConfusion (congrArg Prod.fst h)
    · rw [List.mem_singleton] at h
      have := congrArg Prod.snd h
      norm_num at this

/-- Claim C3 amended: every pop activation invokes the synthesizer
exactly once and always removes the clicked id, whatever the audio
outcome, and the remove request never waits for the scheduled sound
playback to finish; but because the handler awaits the pop promise, the
remove request is issued at the instant that promise settles, after any
context resume delay, not necessarily at the activation instant. -/
theorem c3_amended_pop_activation :
    (∀ (env : AudioEnv) (muted : Bool) (t : ℚ) (i : ℕ) (bs : List Balloon),
      ((clickHandler env muted t i bs).1.filter
        (fun e => e.1 == PopEvent.synthInvoke)).length = 1 ∧
      (clickHandler env muted t i bs).2 = removeBalloon i bs ∧
      (clickHandler env muted t i bs).1 =
        [(PopEvent.synthInvoke, t),
          (PopEvent.removeRequest i, (pop env (layerVolume muted) t).2)]) ∧
    (∀ (env : AudioEnv) (v t : ℚ) (g : AudioGraph),
      (pop env v t).1 = some g → (pop env v t).2 < g.oscStop) := by
  refine ⟨fun env muted t i bs => ⟨rfl, rfl, rfl⟩, ?_⟩
  intro env v t g hg
  by_cases h : env.available
  · by_cases hsus : env.suspended
    · have hpop : pop env v t =
          (some (buildGraph v (t + env.resumeDelay)), t + env.resumeDelay) := by
        simp [pop, popBody, h, hsus]
      rw [hpop] at hg
      rw [Option.some_inj] at hg
      subst hg
      rw [hpop]
      show t + env.resumeDelay < t + env.resumeDelay + 13/100
      linarith
    · have hpop : pop env v t = (some (buildGraph v t), t) := by
        simp [pop, popBody, h, hsus]
      rw [hpop] at hg
      rw [Option.some_inj] at hg
      subst hg
      rw [hpop]
      show t < t + 13/100
      linarith
  · have hpop : pop env v t = (none, t) := by
      simp [pop, popBody, h]
    rw [hpop] at hg
    exact Option.noConfusion hg

/-- Witness for the amended C3 theorem: a concrete activation at time 0
with an available, non-suspended context invokes the synthesizer once,
removes id 4, and issues the removal strictly before the scheduled
oscillator stop. -/
theorem c3_amended_pop_activation_witness :
    (((clickHandler ⟨true, false, 0⟩ false 0 4 []).1.filter
        (fun e => e.1 == PopEvent.synthInvoke)).length = 1 ∧
      (clickHandler ⟨true, false, 0⟩ false 0 4 []).2 = removeBalloon 4 [] ∧
      (clickHandler ⟨true, false, 0⟩ false 0 4 []).1 =
        [(PopEvent.synthInvoke, 0),
          (PopEvent.removeRequest 4, (pop ⟨true, false, 0⟩ (layerVolume false) 0).2)]) ∧
    ((pop ⟨true, false, 0⟩ (6/100) 0).1 = some (buildGraph (6/100) 0) ∧
      (pop ⟨true, false, 0⟩ (6/100) 0).2 < (buildGraph (6/100) 0).oscStop) := by
  refine ⟨c3_amended_pop_activation.1 ⟨true, false, 0⟩ false 0 4 [], rfl, ?_⟩
  exact c3_amended_pop_activation.2 ⟨true, false, 0⟩ (6/100) 0 (buildGraph (6/100) 0) rfl

/-- Claim C8: muting zeroes the volume configuration but the synthesis
path is not branched out of: the click handler still performs exactly
one synthesizer invocation, and the muted signal graph has the same
structure, oscillator parameters, envelope times and connections as the
unmuted one, differing only in gain levels: the output gain is floored
at the inaudible 0.0001 and the noise gain sits at 0. -/
theorem c8_muted_graph_construction :
    layerVolume true = 0 ∧
    (∀ (env : AudioEnv) (t : ℚ) (i : ℕ) (bs : List Balloon),
      ((clickHandler env true t i bs).1.filter
        (fun e => e.1 == PopEvent.synthInvoke)).length = 1) ∧
    (∀ now : ℚ,
      (buildGraph (layerVolume true) now).gainInitial = 1/10000 ∧
      (buildGraph (layerVolume true) now).noiseGainInitial = 0 ∧
      (buildGraph (layerVolume true) now).oscType =
        (buildGraph (layerVolume false) now).oscType ∧
      (buildGraph (layerVolume true) now).oscFreqInit =
        (buildGraph (layerVolume false) now).oscFreqInit ∧
      (buildGraph (layerVolume true) now).oscFreqTarget =
        (buildGraph (layerVolume false) now).oscFreqTarget ∧
      (buildGraph (layerVolume true) now).oscFreqRampEnd =
        (buildGraph (layerVolume false) now).oscFreqRampEnd ∧
      (buildGraph (layerVolume true) now).oscStart =
        (buildGraph (layerVolume false) now).oscStart ∧
      (buildGraph (layerVolume true) now).oscStop =
        (buildGraph (layerVolume false) now).oscStop ∧
      (buildGraph (layerVolume true) now).gainRampTarget =
        (buildGraph (layerVolume false) now).gainRampTarget ∧
      (buildGraph (layerVolume true) now).gainRampEnd =
        (buildGraph (layerVolume false) now).gainRampEnd ∧
      (buildGraph (layerVolume true) now).noiseBufferLen =
        (buildGraph (layerVolume false) now).noiseBufferLen ∧
      (buildGraph (layerVolume true) now).noiseGainRampTarget =
        (buildGraph (layerVolume false) now).noiseGainRampTarget ∧
      (buildGraph (layerVolume true) now).noiseGainRampEnd =
        (buildGraph (layerVolume false) now).noiseGainRampEnd ∧
      (buildGraph (layerVolume true) now).noiseStart =
        (buildGraph (layerVolume false) now).noiseStart ∧
      (buildGraph (layerVolume true) now).noiseStop =
        (buildGraph (layerVolume false) now).noiseStop ∧
      (buildGraph (layerVolume true) now).connections =
        (buildGraph (layerVolume false) now).connections) := by
  refine ⟨rfl, fun env t i bs => rfl, ?_⟩
  intro now
  refine ⟨?_, ?_, rfl, rfl, rfl, rfl, rfl, rfl, rfl, rfl, rfl, rfl, rfl, rfl, rfl, rfl⟩
  · show max (1/10000) (layerVolume true) = 1/10000
    norm_num [layerVolume]
  · show layerVolume true * (2/5) = 0
    norm_num [layerVolume]

/-- Claim C9: audio failure is swallowed at the synthesis boundary:
failing runs of the pop body exist, pop converts every failing body run
into a normal return with no constructed graph, and the click handler
performs the removal and issues the remove request in every environment,
so audio failure never surfaces to the caller nor blocks the visual
pop. -/
theorem c9_audio_failure_swallowed :
    (∃ (env : AudioEnv) (v t : ℚ) (e : AudioErr), popBody env v t = Except.error e) ∧
    (∀ (env : AudioEnv) (v t : ℚ) (e : AudioErr),
      popBody env v t = Except.error e → pop env v t = (none, t)) ∧
    (∀ (env : AudioEnv) (muted : Bool) (t : ℚ) (i : ℕ) (bs : List Balloon),
      (clickHandler env muted t i bs).2 = removeBalloon i bs ∧
      (PopEvent.removeRequest i, (pop env (layerVolume muted) t).2) ∈
        (clickHandler env muted t i bs).1) := by
  refine ⟨⟨⟨false, false, 0⟩, 0, 0, AudioErr.contextUnavailable, rfl⟩, ?_, ?_⟩
  · intro env v t e h
    unfold pop
    rw [h]
  · intro env muted t i bs
    refine ⟨rfl, ?_⟩
    show _ ∈ [(PopEvent.synthInvoke, t),
      (PopEvent.removeRequest i, (pop env (layerVolume muted) t).2)]
    exact List.mem_cons_of_mem _ (List.mem_singleton_self _)

/-- Witness for C9: with an unavailable output device the pop body
errors, pop swallows the error, and the click handler still removes the
clicked id. -/
theorem c9_audio_failure_swallowed_witness :
    pop ⟨false, false, 0⟩ 0 0 = (none, 0) ∧
    (clickHandler ⟨false, false, 0⟩ false 0 3 [randomBalloon 3 halfDraw]).2 =
      removeBalloon 3 [randomBalloon 3 halfDraw] :=
  ⟨c9_audio_failure_swallowed.2.1 ⟨false, false, 0⟩ 0 0 AudioErr.contextUnavailable rfl,
    (c9_audio_failure_swallowed.2.2 ⟨false, false, 0⟩ false 0 3 [randomBalloon 3 halfDraw]).1⟩

/-- Claim C2 evaluation at the failing input: from the initial state
(balloons on, 12 live after the mount burst), popping ids 1 through 7
leaves 5 balloons airborne; pressing the balloons toggle then removes
the conditionally rendered BalloonsLayer subtree, and the live set drops
from 5 to 0 at the moment of disabling instead of the 5 balloons
continuing their ascents. -/
theorem c2_disable_clears_live_set :
    liveSize (appRun halfRnd (appInit halfRnd)
      [AppEvent.remove 1, AppEvent.remove 2, AppEvent.remove 3, AppEvent.remove 4,
        AppEvent.remove 5, AppEvent.remove 6, AppEvent.remove 7]) = 5 ∧
    liveSize (appStep halfRnd (appRun halfRnd (appInit halfRnd)
      [AppEvent.remove 1, AppEvent.remove 2, AppEvent.remove 3, AppEvent.remove 4,
        AppEvent.remove 5, AppEvent.remove 6, AppEvent.remove 7]) AppEvent.toggle) = 0 := by
  decide

/-- Claim C6 evaluation at the failing input: toggling balloons off and
on again remounts BalloonsLayer with a fresh id counter starting at 1,
so the session log of all created ids contains id 1 twice: ids are
reused across a disable and re-enable cycle, and the set of ids ever
created in the session is not pairwise distinct. -/
theorem c6_ids_reused_after_reenable :
    (appRun halfRnd (appInit halfRnd) [AppEvent.toggle, AppEvent.toggle]).createdLog.count 1 = 2 ∧
    ¬ (appRun halfRnd (appInit halfRnd) [AppEvent.toggle, AppEvent.toggle]).createdLog.Nodup := by
  decide

end BalloonApp
